import Mathlib

/-!
Shallow embedding of the PDF-translation core of `pdf_translator.py` and the
worker loop of `gui.py`.  Python strings are modelled as `List Char`
(sequences of Unicode code points); the two in-memory dict caches are
modelled as association lists written by prepending (a Python dict lookup
finds the entry; our `List.lookup` finds the most recently prepended
binding, and the code only ever writes a key after a failed lookup, so no
key is ever bound twice).  External effects (the langdetect library, the
Google-translate libraries, the OpenAI-compatible chat endpoint, and
module-load success) are modelled as oracle functions in an `Env`; an oracle
returning `none` models the call raising an exception.
-/

namespace PDFTrans

/-- One code point, as tested by `_is_chinese`, of the regex class `[一-鿿]`
(CJK Unified Ideographs). -/
def isCJK (c : Char) : Bool := 0x4e00 ≤ c.toNat && c.toNat ≤ 0x9fff

/-- Embeds `PDFTranslator._is_chinese`: `re.search(r'[一-鿿]', text)` —
true iff some code point is a CJK Unified Ideograph. -/
def is_chinese (t : List Char) : Bool := t.any isCJK

/-- One code point of the regex class `[a-zA-Z]` (basic Latin letters). -/
def isLatinLetter (c : Char) : Bool :=
  (0x41 ≤ c.toNat && c.toNat ≤ 0x5a) || (0x61 ≤ c.toNat && c.toNat ≤ 0x7a)

/-- Embeds `PDFTranslator._needs_translation`: `re.search(r'[a-zA-Z]', text)`. -/
def needs_translation (t : List Char) : Bool := t.any isLatinLetter

/-- ASCII whitespace as stripped by Python `str.strip()` (space and the
control characters 9–13; the non-ASCII Unicode space code points also
stripped by Python are not used by any claim and are omitted). -/
def isStripSpace (c : Char) : Bool := c.toNat = 32 || (9 ≤ c.toNat && c.toNat ≤ 13)

/-- Python falsiness of `text` combined with `text.strip()`:
`not text or not text.strip()` holds iff every character is whitespace
(including the empty string). -/
def isBlank (t : List Char) : Bool := t.all isStripSpace

/-- Python falsiness of an optional string field (`None` or `""`). -/
def optFalsy : Option String → Bool
  | none => true
  | some s => s.isEmpty

/-- The mutable attributes of a `PDFTranslator` instance that the embedded
methods read or write (`__init__`, lines 55–73). -/
structure TranslatorState where
  translator_service : String
  api_key : Option String
  base_url : Option String
  model_name : Option String
  auto_detect_language : Bool
  translation_cache : List (List Char × List Char)
  language_cache : List (List Char × String)
deriving DecidableEq

/-- External capabilities and module-level flags.  An oracle returning
`none` models the underlying call raising an exception. -/
structure Env where
  /-- Module flag `USE_LANGDETECT`. -/
  useLangdetect : Bool
  /-- Oracle for `langdetect.detect(text)`; `none` models `LangDetectException`
  (or any other exception) being raised. -/
  detectOracle : List Char → Option String
  /-- The Google-translate call with an explicit source language (or
  `"auto"`) and target Traditional Chinese; both the `deep_translator`
  branch and the `googletrans` branch of lines 151–166 reduce to one
  phrase-translation call of this shape. -/
  googleBackend : String → List Char → Option (List Char)
  /-- Oracle for `client.chat.completions.create(...)` reduced to its inputs that the
  code supplies: api key, base url, model name, user text.  `none` models
  any exception (network, auth, malformed response). -/
  chatBackend : Option String → Option String → String → List Char → Option (List Char)
  /-- Whether `from openai import OpenAI` succeeds (lines 169–174). -/
  openaiImportOk : Bool

/-- Embeds `PDFTranslator.__init__` (lines 55–73): note `auto_detect_language` is
conjoined with `USE_LANGDETECT`, and the freegpt service substitutes a
default base url when the given one is `None` or `""` (Python `or`). -/
def PDFTranslator.init (env : Env) (translator_service : String)
    (api_key : Option String) (auto_detect : Bool) (base_url : Option String) :
    TranslatorState :=
  { translator_service := translator_service
    api_key := api_key
    base_url :=
      if translator_service = "freegpt" then
        if optFalsy base_url then some "https://free.v36.cm/v1/" else base_url
      else base_url
    model_name := none
    auto_detect_language := auto_detect && env.useLangdetect
    translation_cache := []
    language_cache := [] }

/-- Embeds `PDFTranslator.detect_language` (lines 75–113).  Returns the detected
tag and the updated state (the language cache may gain one entry).  A
`detectOracle` failure returns `"auto"` and caches nothing, exactly like
the `except LangDetectException` / `except Exception` handlers. -/
def detect_language (env : Env) (s : TranslatorState) (text : List Char) :
    String × TranslatorState :=
  if !env.useLangdetect || isBlank text then ("auto", s)
  else
    match s.language_cache.lookup text with
    | some l => (l, s)
    | none =>
      if is_chinese text then
        ("zh", { s with language_cache := (text, "zh") :: s.language_cache })
      else
        match env.detectOracle text with
        | none => ("auto", s)
        | some d =>
          let d := if d = "zh-cn" || d = "zh-tw" then "zh" else d
          (d, { s with language_cache := (text, d) :: s.language_cache })

/-- The translation-cache key of line 134:
`f"{source_lang}:{text}" if source_lang else text` — the language code
followed by a colon and the text when the language is truthy, the bare
text otherwise. -/
def cache_key (source_lang : Option String) (text : List Char) : List Char :=
  match source_lang with
  | some l => if l.isEmpty then text else l.data ++ ':' :: text
  | none => text

/-- The ways the dispatch step of `translate_text` can raise. -/
inductive TransError where
  /-- Models `raise ValueError` of lines 181 and 183 (a missing mandated key). -/
  | configError
  /-- Models `raise ImportError` when the openai package is missing. -/
  | importError
  /-- Any exception out of the backend library call itself. -/
  | backendError
deriving DecidableEq

/-- Default model names of lines 193–202. -/
def defaultModel (svc : String) : String :=
  if svc = "freegpt" then "gpt-4o-mini" else "gpt-3.5-turbo"

/-- The model-name choice of lines 192–202: Python `if not model_name`
treats `""` like `None`, substituting the per-service default. -/
def modelNameOf (s : TranslatorState) : String :=
  match s.model_name with
  | some m => if m = "" then defaultModel s.translator_service else m
  | none => defaultModel s.translator_service

/-- The chat-completion call of lines 185–212: choose the model name,
then invoke the endpoint oracle. -/
def chatCall (env : Env) (s : TranslatorState) (text : List Char) :
    Except TransError (List Char) × TranslatorState × Nat :=
  match env.chatBackend s.api_key s.base_url (modelNameOf s) text with
  | some tr => (.ok tr, s, 1)
  | none => (.error .backendError, s, 1)

/-- Whether the service name selects the OpenAI-compatible branch
(line 167). -/
def isChatService (svc : String) : Bool :=
  svc = "openai" || svc = "localai" || svc = "freegpt"

/-- The explicit source passed to the Google call (lines 154–158, both
library branches): the language hint when it is truthy and neither `auto`
nor `zh`, else `auto`. -/
def googleSource (lang : String) : String :=
  if lang ≠ "" ∧ lang ≠ "auto" ∧ lang ≠ "zh" then lang else "auto"

/-- The body of the `try` block of `translate_text` (lines 148–214):
dispatch to the configured backend.  Returns the outcome, the state as it
stands when the block finishes or raises (the `localai` placeholder-key
write on line 179 mutates `self.api_key` and persists even if the
subsequent call raises), and the number of backend invocations made. -/
def dispatchBackend (env : Env) (s : TranslatorState) (text : List Char)
    (lang : String) : Except TransError (List Char) × TranslatorState × Nat :=
  if s.translator_service = "google" then
    match env.googleBackend (googleSource lang) text with
    | some tr => (.ok tr, s, 1)
    | none => (.error .backendError, s, 1)
  else if isChatService s.translator_service then
    if env.openaiImportOk = false then (.error .importError, s, 0)
    else if optFalsy s.api_key then
      if s.translator_service = "localai" then
        chatCall env { s with api_key := some "not-needed" } text
      else (.error .configError, s, 0)
    else chatCall env s text
  else
    (.ok text, s, 0)

/-- The result of one `translate_text` call: returned text, state after
the call, and how many backend invocations the call performed. -/
structure TResult where
  text : List Char
  state : TranslatorState
  backendCalls : Nat
deriving DecidableEq

/-- Lines 216–226: a successful dispatch stores the result under the
cache key and returns it; any exception is caught, logged, and the
original text returned (with whatever state mutations happened before the
raise kept). -/
def finishTranslate (env : Env) (s : TranslatorState) (text : List Char)
    (lang : String) (key : List Char) : TResult :=
  match dispatchBackend env s text lang with
  | (.ok tr, s', n) =>
    ⟨tr, { s' with translation_cache := (key, tr) :: s'.translation_cache }, n⟩
  | (.error _, s', n) => ⟨text, s', n⟩

/-- Embeds `PDFTranslator.translate_text` (lines 115–226). -/
def translate_text (env : Env) (s : TranslatorState) (text : List Char)
    (source_lang : Option String) : TResult :=
  if isBlank text then ⟨text, s, 0⟩
  else if is_chinese text then ⟨text, s, 0⟩
  else
    let key := cache_key source_lang text
    match s.translation_cache.lookup key with
    | some cached => ⟨cached, s, 0⟩
    | none =>
      match source_lang with
      | some l => finishTranslate env s text (if l = "auto" then "auto" else l) key
      | none =>
        if s.auto_detect_language then
          let d := detect_language env s text
          if d.1 = "zh" then ⟨text, d.2, 0⟩
          else finishTranslate env d.2 text (if d.1 = "auto" then "auto" else d.1) key
        else finishTranslate env s text "auto" key

/-- Outcome of the per-block body of `translate_pdf` (lines 285–304):
the block's text afterwards, whether `_replace_text_in_page` was invoked,
the state after, and the backend invocations performed. -/
structure BlockOut where
  text : List Char
  rewritten : Bool
  state : TranslatorState
  backendCalls : Nat
deriving DecidableEq

/-- The per-fragment body of `translate_pdf` (lines 285–304): skip blocks
that are Chinese or need no translation; optionally detect (skipping on
`zh`); translate; rewrite only when the result differs. -/
def process_block (env : Env) (s : TranslatorState) (text : List Char) : BlockOut :=
  if is_chinese text || !needs_translation text then ⟨text, false, s, 0⟩
  else if s.auto_detect_language then
    let d := detect_language env s text
    if d.1 = "zh" then ⟨text, false, d.2, 0⟩
    else
      let r := translate_text env d.2 text (some d.1)
      ⟨r.text, decide (r.text ≠ text), r.state, r.backendCalls⟩
  else
    let r := translate_text env s text none
    ⟨r.text, decide (r.text ≠ text), r.state, r.backendCalls⟩

/-- One page of `translate_pdf`: fold the per-block body over the page's
fragments, collecting the resulting text content. -/
def process_page (env : Env) : TranslatorState → List (List Char) →
    List (List Char) × TranslatorState
  | s, [] => ([], s)
  | s, b :: bs =>
    let r := process_block env s b
    let rest := process_page env r.state bs
    (r.text :: rest.1, rest.2)

/-- Embeds `PDFTranslator.translate_pdf` (lines 259–314) restricted to its text
content: the document is a list of pages, each a list of fragment texts;
the result is the text content of the saved document plus the final
translator state.  (The run always ends in a save; opening and saving are
collaborator calls that carry no text transformation.) -/
def translate_pdf (env : Env) : TranslatorState → List (List (List Char)) →
    List (List (List Char)) × TranslatorState
  | s, [] => ([], s)
  | s, p :: ps =>
    let r := process_page env s p
    let rest := translate_pdf env r.2 ps
    (r.1 :: rest.1, rest.2)

/-- A `color` value as found in a span dictionary: an integer or an
already-decomposed triple. -/
inductive ColorVal where
  | int : Nat → ColorVal
  | rgb : ℚ × ℚ × ℚ → ColorVal
deriving DecidableEq

/-- The color handling of `_replace_text_in_page` (lines 376–384):
`0` becomes solid black; any other integer is split with
`(color >> 16) & 0xFF`, `(color >> 8) & 0xFF`, `color & 0xFF` and each
channel divided by 255.0; a triple passes through. -/
def decodeColor : ColorVal → ℚ × ℚ × ℚ
  | .int c =>
    if c = 0 then (0, 0, 0)
    else (((c >>> 16) &&& 0xFF : ℕ) / 255, ((c >>> 8) &&& 0xFF : ℕ) / 255,
          ((c &&& 0xFF : ℕ) / 255))
  | .rgb t => t

/-!
The cancellation-aware worker loop `TranslationWorker._translate_with_progress`
of `gui.py` (lines 91–151).  The `_cancelled` flag is set asynchronously by
the GUI thread and never cleared; we model it as a function of a check
counter: the driver reads `flag t` at its `t`-th cancellation check.  The
code checks the flag before each page (line 103), before each fragment
(line 117), and once more before saving (line 144).  A page is given by
its number of fragments; the run returns, for each page whose body was
entered, how many of its fragments were processed, together with whether
`doc.save` was invoked.
-/

/-- The per-fragment loop of `_translate_with_progress` for one page with
`n` fragments, starting at check counter `t`: returns (fragments
processed, counter afterwards, whether the loop exited by cancellation). -/
def fragLoop (flag : Nat → Bool) : Nat → Nat → Nat × Nat × Bool
  | t, 0 => (0, t, false)
  | t, n + 1 =>
    if flag t then (0, t + 1, true)
    else
      let r := fragLoop flag (t + 1) n
      (r.1 + 1, r.2.1, r.2.2)

/-- The page loop of `_translate_with_progress`: returns (fragments
processed per entered page, counter afterwards, whether the loop exited by
cancellation). -/
def pageLoop (flag : Nat → Bool) : Nat → List Nat → List Nat × Nat × Bool
  | t, [] => ([], t, false)
  | t, n :: rest =>
    if flag t then ([], t + 1, true)
    else
      let fr := fragLoop flag (t + 1) n
      if fr.2.2 then ([fr.1], fr.2.1, true)
      else
        let pr := pageLoop flag fr.2.1 rest
        (fr.1 :: pr.1, pr.2.1, pr.2.2)

/-- Embeds `_translate_with_progress` itself: run the page loop from counter 0;
if it was cancelled the function returns without saving, otherwise the
flag is read once more (`if not self._cancelled`, line 144) and the
document saved only if it is still clear.  Returns (fragments processed
per entered page, whether `doc.save` ran). -/
def runWorker (flag : Nat → Bool) (pages : List Nat) : List Nat × Bool :=
  let r := pageLoop flag 0 pages
  if r.2.2 then (r.1, false)
  else if flag r.2.1 then (r.1, false)
  else (r.1, true)

/-- The configured service selects one of the four real backends of the
dispatch (everything except the dead `else` arm of line 213). -/
abbrev knownService (s : TranslatorState) : Prop :=
  s.translator_service = "google" ∨ isChatService s.translator_service = true

/-- One code point of the ASCII digit range. -/
def isAsciiDigit (c : Char) : Bool := 0x30 ≤ c.toNat && c.toNat ≤ 0x39

/-- One code point of the four ASCII punctuation/symbol ranges
(U+0021–U+002F, U+003A–U+0040, U+005B–U+0060, U+007B–U+007E). -/
def isAsciiPunct (c : Char) : Bool :=
  (0x21 ≤ c.toNat && c.toNat ≤ 0x2f) || (0x3a ≤ c.toNat && c.toNat ≤ 0x40) ||
  (0x5b ≤ c.toNat && c.toNat ≤ 0x60) || (0x7b ≤ c.toNat && c.toNat ≤ 0x7e)

/-- An environment in which every external call raises. -/
def envFail : Env :=
  { useLangdetect := false
    detectOracle := fun _ => none
    googleBackend := fun _ _ => none
    chatBackend := fun _ _ _ _ => none
    openaiImportOk := true }

/-- An environment whose Google backend always answers `['T']` and whose
other capabilities raise. -/
def envProbe : Env :=
  { useLangdetect := false
    detectOracle := fun _ => none
    googleBackend := fun _ _ => some ['T']
    chatBackend := fun _ _ _ _ => none
    openaiImportOk := true }

/-- A fresh Google-backed translator with auto-detection off. -/
def stGoogle : TranslatorState := ⟨"google", none, none, none, false, [], []⟩

/-- A fresh OpenAI-backed translator with no API key. -/
def stOpenai : TranslatorState := ⟨"openai", none, none, none, false, [], []⟩

/-- A fresh LocalAI-backed translator with no API key. -/
def stLocalai : TranslatorState := ⟨"localai", none, none, none, false, [], []⟩

/-- A Google-backed translator whose translation cache already holds one
entry. -/
def stCached : TranslatorState :=
  ⟨"google", none, none, none, false, [(['k'], ['v'])], []⟩

/-!  State-shape lemmas: which fields each embedded operation can touch. -/

theorem detect_language_state (env : Env) (s : TranslatorState) (t : List Char) :
    ∃ lc, (detect_language env s t).2 = { s with language_cache := lc } := by
  unfold detect_language
  repeat' split
  all_goals exact ⟨_, rfl⟩

theorem chatCall_state (env : Env) (s : TranslatorState) (t : List Char) :
    (chatCall env s t).2.1 = s := by
  unfold chatCall
  split <;> rfl

theorem dispatchBackend_state (env : Env) (s : TranslatorState) (t : List Char)
    (l : String) :
    ∃ ak, (dispatchBackend env s t l).2.1 = { s with api_key := ak } := by
  unfold dispatchBackend
  repeat' split
  all_goals simp only [chatCall_state]
  all_goals first
    | exact ⟨s.api_key, rfl⟩
    | exact ⟨some "not-needed", rfl⟩

theorem dispatchBackend_apiKey (env : Env) (s : TranslatorState) (t : List Char)
    (l : String) (h : s.translator_service ≠ "localai") :
    (dispatchBackend env s t l).2.1 = s := by
  unfold dispatchBackend
  repeat' split
  all_goals simp only [chatCall_state]


theorem dispatchBackend_err_of_failing (env : Env) (s : TranslatorState)
    (t : List Char) (l : String)
    (hg : ∀ src u, env.googleBackend src u = none)
    (hc : ∀ a b m u, env.chatBackend a b m u = none)
    (hs : s.translator_service = "google" ∨ isChatService s.translator_service = true) :
    ∃ e, (dispatchBackend env s t l).1 = Except.error e := by
  unfold dispatchBackend chatCall
  repeat' split
  all_goals first
    | exact ⟨_, rfl⟩
    | simp_all [hg, hc]

theorem finishTranslate_failing (env : Env) (s : TranslatorState)
    (text : List Char) (lang : String) (key : List Char)
    (hg : ∀ src u, env.googleBackend src u = none)
    (hc : ∀ a b m u, env.chatBackend a b m u = none)
    (hs : s.translator_service = "google" ∨ isChatService s.translator_service = true) :
    (finishTranslate env s text lang key).text = text ∧
    (finishTranslate env s text lang key).state.translation_cache = s.translation_cache := by
  obtain ⟨e, he⟩ := dispatchBackend_err_of_failing env s text lang hg hc hs
  obtain ⟨ak, hak⟩ := dispatchBackend_state env s text lang
  unfold finishTranslate
  split
  · next tr s' n heq => rw [heq] at he; simp at he
  · next e' s' n heq =>
    have h1 : s' = { s with api_key := ak } := by rw [heq] at hak; exact hak
    subst h1
    exact ⟨rfl, rfl⟩

theorem finishTranslate_state (env : Env) (s : TranslatorState)
    (text : List Char) (lang : String) (key : List Char) :
    ∃ tc ak, (finishTranslate env s text lang key).state =
      { s with translation_cache := tc, api_key := ak } := by
  obtain ⟨ak, hak⟩ := dispatchBackend_state env s text lang
  unfold finishTranslate
  split
  · next tr s' n heq =>
    have h1 : s' = { s with api_key := ak } := by rw [heq] at hak; exact hak
    subst h1
    exact ⟨_, ak, rfl⟩
  · next e' s' n heq =>
    have h1 : s' = { s with api_key := ak } := by rw [heq] at hak; exact hak
    subst h1
    exact ⟨s.translation_cache, ak, rfl⟩

theorem finishTranslate_lookup (env : Env) (s : TranslatorState)
    (text : List Char) (lang : String) (key : List Char) (k : List Char)
    (v : List Char)
    (hm : s.translation_cache.lookup key = none)
    (h : s.translation_cache.lookup k = some v) :
    (finishTranslate env s text lang key).state.translation_cache.lookup k = some v := by
  obtain ⟨ak, hak⟩ := dispatchBackend_state env s text lang
  unfold finishTranslate
  split
  · next tr s' n heq =>
    have h1 : s' = { s with api_key := ak } := by rw [heq] at hak; exact hak
    subst h1
    show List.lookup k ((key, tr) :: s.translation_cache) = some v
    by_cases hk : k = key
    · subst hk; rw [hm] at h; cases h
    · have hkf : (k == key) = false := beq_eq_false_iff_ne.mpr hk
      simp [List.lookup, hkf, h]
  · next e' s' n heq =>
    have h1 : s' = { s with api_key := ak } := by rw [heq] at hak; exact hak
    subst h1
    exact h


theorem translate_text_failing (env : Env) (s : TranslatorState)
    (text : List Char) (lang : Option String)
    (hg : ∀ src u, env.googleBackend src u = none)
    (hc : ∀ a b m u, env.chatBackend a b m u = none)
    (hs : s.translator_service = "google" ∨ isChatService s.translator_service = true) :
    (translate_text env s text lang).state.translation_cache = s.translation_cache ∧
    (s.translation_cache.lookup (cache_key lang text) = none →
      (translate_text env s text lang).text = text) := by
  unfold translate_text
  dsimp only
  split
  · exact ⟨rfl, fun _ => rfl⟩
  split
  · exact ⟨rfl, fun _ => rfl⟩
  split
  · next cached heq => exact ⟨rfl, fun hm => by simp [heq] at hm⟩
  · next heq =>
    split
    · next l =>
      obtain ⟨h1, h2⟩ := finishTranslate_failing env s text
        (if l = "auto" then "auto" else l) (cache_key (some l) text) hg hc hs
      exact ⟨h2, fun _ => h1⟩
    · split
      · split
        · obtain ⟨lc, hlc⟩ := detect_language_state env s text
          refine ⟨?_, fun _ => rfl⟩
          rw [hlc]
        · obtain ⟨lc, hlc⟩ := detect_language_state env s text
          have hs2 : (detect_language env s text).2.translator_service = "google" ∨
              isChatService (detect_language env s text).2.translator_service = true := by
            rw [hlc]; exact hs
          obtain ⟨h1, h2⟩ := finishTranslate_failing env (detect_language env s text).2 text
            (if (detect_language env s text).1 = "auto" then "auto"
             else (detect_language env s text).1) (cache_key none text) hg hc hs2
          refine ⟨?_, fun _ => h1⟩
          rw [h2, hlc]
      · obtain ⟨h1, h2⟩ := finishTranslate_failing env s text "auto" (cache_key none text) hg hc hs
        exact ⟨h2, fun _ => h1⟩

theorem translate_text_state (env : Env) (s : TranslatorState)
    (text : List Char) (lang : Option String) :
    ∃ tc lc ak, (translate_text env s text lang).state =
      { s with translation_cache := tc, language_cache := lc, api_key := ak } := by
  cases lang with
  | some l =>
    unfold translate_text
    dsimp only
    split
    · exact ⟨s.translation_cache, s.language_cache, s.api_key, rfl⟩
    split
    · exact ⟨s.translation_cache, s.language_cache, s.api_key, rfl⟩
    split
    · exact ⟨s.translation_cache, s.language_cache, s.api_key, rfl⟩
    · obtain ⟨tc, ak, h⟩ := finishTranslate_state env s text
        (if l = "auto" then "auto" else l) (cache_key (some l) text)
      exact ⟨tc, s.language_cache, ak, by rw [h]⟩
  | none =>
    unfold translate_text
    dsimp only
    split
    · exact ⟨s.translation_cache, s.language_cache, s.api_key, rfl⟩
    split
    · exact ⟨s.translation_cache, s.language_cache, s.api_key, rfl⟩
    split
    · exact ⟨s.translation_cache, s.language_cache, s.api_key, rfl⟩
    · split
      · split
        · obtain ⟨lc, hlc⟩ := detect_language_state env s text
          exact ⟨s.translation_cache, lc, s.api_key, by rw [hlc]⟩
        · obtain ⟨lc, hlc⟩ := detect_language_state env s text
          obtain ⟨tc, ak, h⟩ := finishTranslate_state env (detect_language env s text).2 text
            (if (detect_language env s text).1 = "auto" then "auto"
             else (detect_language env s text).1) (cache_key none text)
          exact ⟨tc, lc, ak, by rw [h, hlc]⟩
      · obtain ⟨tc, ak, h⟩ := finishTranslate_state env s text "auto" (cache_key none text)
        exact ⟨tc, s.language_cache, ak, by rw [h]⟩

theorem translate_text_lookup (env : Env) (s : TranslatorState)
    (text : List Char) (lang : Option String) (k v : List Char)
    (h : s.translation_cache.lookup k = some v) :
    (translate_text env s text lang).state.translation_cache.lookup k = some v := by
  cases lang with
  | some l =>
    unfold translate_text
    dsimp only
    split
    · exact h
    split
    · exact h
    split
    · exact h
    · next heq =>
      exact finishTranslate_lookup env s text (if l = "auto" then "auto" else l)
        (cache_key (some l) text) k v heq h
  | none =>
    unfold translate_text
    dsimp only
    split
    · exact h
    split
    · exact h
    split
    · exact h
    · next heq =>
      split
      · split
        · obtain ⟨lc, hlc⟩ := detect_language_state env s text
          rw [hlc]; exact h
        · obtain ⟨lc, hlc⟩ := detect_language_state env s text
          have hm2 : (detect_language env s text).2.translation_cache.lookup
              (cache_key none text) = none := by rw [hlc]; exact heq
          have h2 : (detect_language env s text).2.translation_cache.lookup k = some v := by
            rw [hlc]; exact h
          exact finishTranslate_lookup env (detect_language env s text).2 text
            (if (detect_language env s text).1 = "auto" then "auto"
             else (detect_language env s text).1) (cache_key none text) k v hm2 h2
      · exact finishTranslate_lookup env s text "auto" (cache_key none text) k v heq h


theorem dispatchBackend_ok_calls (env : Env) (s : TranslatorState) (t : List Char)
    (l : String) (tr : List Char) (s' : TranslatorState) (n : Nat)
    (hs : knownService s)
    (h : dispatchBackend env s t l = (Except.ok tr, s', n)) : n = 1 := by
  unfold dispatchBackend chatCall at h
  repeat' split at h
  all_goals simp_all [knownService]

theorem process_block_failing (env : Env) (s : TranslatorState) (b : List Char)
    (hg : ∀ src u, env.googleBackend src u = none)
    (hc : ∀ a b m u, env.chatBackend a b m u = none)
    (hs : knownService s) (hcache : s.translation_cache = []) :
    (process_block env s b).text = b ∧
    (process_block env s b).rewritten = false ∧
    (process_block env s b).state.translation_cache = [] ∧
    (process_block env s b).state.translator_service = s.translator_service := by
  unfold process_block
  dsimp only
  split
  · exact ⟨rfl, rfl, hcache, rfl⟩
  · split
    · split
      · obtain ⟨lc, hlc⟩ := detect_language_state env s b
        refine ⟨rfl, rfl, ?_, ?_⟩
        · rw [hlc]; exact hcache
        · rw [hlc]
      · obtain ⟨lc, hlc⟩ := detect_language_state env s b
        have hd2c : (detect_language env s b).2.translation_cache = [] := by
          rw [hlc]; exact hcache
        have hs2 : knownService (detect_language env s b).2 := by
          unfold knownService; rw [hlc]; exact hs
        have hmiss : (detect_language env s b).2.translation_cache.lookup
            (cache_key (some (detect_language env s b).1) b) = none := by
          rw [hd2c]; rfl
        obtain ⟨f1, f2⟩ := translate_text_failing env (detect_language env s b).2 b
          (some (detect_language env s b).1) hg hc hs2
        have htext := f2 hmiss
        obtain ⟨tc, lc2, ak, hst⟩ := translate_text_state env (detect_language env s b).2 b
          (some (detect_language env s b).1)
        refine ⟨htext, ?_, ?_, ?_⟩
        · rw [htext]; simp
        · rw [f1]; exact hd2c
        · rw [hst, hlc]
    · have hmiss : s.translation_cache.lookup (cache_key none b) = none := by
        rw [hcache]; rfl
      obtain ⟨f1, f2⟩ := translate_text_failing env s b none hg hc hs
      have htext := f2 hmiss
      obtain ⟨tc, lc2, ak, hst⟩ := translate_text_state env s b none
      refine ⟨htext, ?_, ?_, ?_⟩
      · rw [htext]; simp
      · rw [f1]; exact hcache
      · rw [hst]

theorem process_page_failing (env : Env)
    (hg : ∀ src u, env.googleBackend src u = none)
    (hc : ∀ a b m u, env.chatBackend a b m u = none) :
    ∀ (bs : List (List Char)) (s : TranslatorState), knownService s →
      s.translation_cache = [] →
      (process_page env s bs).1 = bs ∧
      (process_page env s bs).2.translation_cache = [] ∧
      (process_page env s bs).2.translator_service = s.translator_service := by
  intro bs
  induction bs with
  | nil => intro s _ hc0; exact ⟨rfl, hc0, rfl⟩
  | cons b bs ih =>
    intro s hs hc0
    obtain ⟨h1, _, h3, h4⟩ := process_block_failing env s b hg hc hs hc0
    have hs' : knownService (process_block env s b).state := by
      unfold knownService; rw [h4]; exact hs
    obtain ⟨i1, i2, i3⟩ := ih (process_block env s b).state hs' h3
    unfold process_page
    dsimp only
    refine ⟨?_, i2, ?_⟩
    · rw [h1, i1]
    · rw [i3, h4]

theorem translate_pdf_failing (env : Env)
    (hg : ∀ src u, env.googleBackend src u = none)
    (hc : ∀ a b m u, env.chatBackend a b m u = none) :
    ∀ (doc : List (List (List Char))) (s : TranslatorState), knownService s →
      s.translation_cache = [] →
      (translate_pdf env s doc).1 = doc := by
  intro doc
  induction doc with
  | nil => intro s _ _; rfl
  | cons p ps ih =>
    intro s hs hc0
    obtain ⟨h1, h2, h3⟩ := process_page_failing env hg hc p s hs hc0
    have hs' : knownService (process_page env s p).2 := by
      unfold knownService; rw [h3]; exact hs
    unfold translate_pdf
    dsimp only
    rw [h1, ih (process_page env s p).2 hs' h2]


theorem finishTranslate_apiKey (env : Env) (s : TranslatorState)
    (text : List Char) (lang : String) (key : List Char)
    (h : s.translator_service ≠ "localai") :
    (finishTranslate env s text lang key).state.api_key = s.api_key := by
  have hd := dispatchBackend_apiKey env s text lang h
  unfold finishTranslate
  split
  · next tr s' n heq =>
    have h1 : s' = s := by rw [heq] at hd; exact hd
    rw [h1]
  · next e' s' n heq =>
    have h1 : s' = s := by rw [heq] at hd; exact hd
    rw [h1]

theorem translate_text_apiKey (env : Env) (s : TranslatorState)
    (text : List Char) (lang : Option String)
    (h : s.translator_service ≠ "localai") :
    (translate_text env s text lang).state.api_key = s.api_key := by
  cases lang with
  | some l =>
    unfold translate_text
    dsimp only
    split
    · rfl
    split
    · rfl
    split
    · rfl
    · exact finishTranslate_apiKey env s text (if l = "auto" then "auto" else l)
        (cache_key (some l) text) h
  | none =>
    unfold translate_text
    dsimp only
    split
    · rfl
    split
    · rfl
    split
    · rfl
    · split
      · split
        · obtain ⟨lc, hlc⟩ := detect_language_state env s text
          rw [hlc]
        · obtain ⟨lc, hlc⟩ := detect_language_state env s text
          have h2 : (detect_language env s text).2.translator_service ≠ "localai" := by
            rw [hlc]; exact h
          have h3 := finishTranslate_apiKey env (detect_language env s text).2 text
            (if (detect_language env s text).1 = "auto" then "auto"
             else (detect_language env s text).1) (cache_key none text) h2
          rw [h3, hlc]
      · exact finishTranslate_apiKey env s text "auto" (cache_key none text) h


/-- Claim C5: for a text whose code points all lie in the CJK Unified
Ideographs block, `translate_text` is the identity for every
source-language argument: the text comes back unchanged, no backend is
invoked, and the state (in particular the translation cache) is
untouched. -/
theorem translate_cjk_identity (env : Env) (s : TranslatorState)
    (text : List Char) (lang : Option String)
    (h : ∀ c ∈ text, isCJK c = true) :
    translate_text env s text lang = ⟨text, s, 0⟩ := by
  cases text with
  | nil => cases lang <;> rfl
  | cons c cs =>
    have hc := h c (List.mem_cons_self c cs)
    have hcj : 0x4e00 ≤ c.toNat ∧ c.toNat ≤ 0x9fff := by
      simpa [isCJK, Bool.and_eq_true, decide_eq_true_eq] using hc
    have hblank : isBlank (c :: cs) = false := by
      have hsp : isStripSpace c = false := by
        simp only [isStripSpace, Bool.or_eq_false_iff, Bool.and_eq_false_iff,
          decide_eq_false_iff_not]
        omega
      simp [isBlank, hsp]
    have hch : is_chinese (c :: cs) = true := by
      simp [is_chinese, List.any_cons, hc]
    unfold translate_text
    simp [hblank, hch]

/-- Witness for C5 at a concrete all-CJK text. -/
theorem translate_cjk_identity_witness :
    (∀ c ∈ ['中', '文'], isCJK c = true) ∧
    translate_text envFail stGoogle ['中', '文'] (some "en") = ⟨['中', '文'], stGoogle, 0⟩ :=
  ⟨by decide, translate_cjk_identity envFail stGoogle ['中', '文'] (some "en") (by decide)⟩

/-- Claim C6: `_needs_translation` holds exactly when the text contains a
basic Latin letter, and the per-fragment driver body leaves a fragment of
digits and punctuation completely untouched: same text, no rewrite, no
state change, no backend invocation. -/
theorem needs_translation_latin_and_skip :
    (∀ t : List Char, needs_translation t = true ↔ ∃ c ∈ t, isLatinLetter c = true) ∧
    (∀ (env : Env) (s : TranslatorState) (t : List Char),
      (∀ c ∈ t, isAsciiDigit c = true ∨ isAsciiPunct c = true) →
      needs_translation t = false ∧ process_block env s t = ⟨t, false, s, 0⟩) := by
  constructor
  · intro t
    simp [needs_translation, List.any_eq_true]
  · intro env s t h
    have hn : needs_translation t = false := by
      simp only [needs_translation, List.any_eq_false]
      intro c hcmem
      have hcd := h c hcmem
      simp only [isLatinLetter, isAsciiDigit, isAsciiPunct, Bool.or_eq_true,
        Bool.and_eq_true, decide_eq_true_eq, Bool.or_eq_false_iff,
        Bool.and_eq_false_iff, decide_eq_false_iff_not] at hcd ⊢
      omega
    refine ⟨hn, ?_⟩
    unfold process_block
    simp [hn]

/-- Witness for C6 at a concrete digits-and-punctuation fragment. -/
theorem needs_translation_latin_and_skip_witness :
    (∀ c ∈ ['4', '2', '.', '%'], isAsciiDigit c = true ∨ isAsciiPunct c = true) ∧
    needs_translation ['4', '2', '.', '%'] = false ∧
    process_block envFail stGoogle ['4', '2', '.', '%']
      = ⟨['4', '2', '.', '%'], false, stGoogle, 0⟩ :=
  ⟨by decide, needs_translation_latin_and_skip.2 envFail stGoogle ['4', '2', '.', '%'] (by decide)⟩

/-- Claim C8: color `0` maps to solid black; any other integer decomposes
into red = bits 16–23, green = bits 8–15, blue = bits 0–7, each divided by
255; `0x0078D4` gives exactly `(0, 0x78/255, 0xD4/255)`; an
already-decomposed triple passes through unchanged. -/
theorem color_decomposition (c : Nat) (hc : c ≠ 0) :
    decodeColor (ColorVal.int 0) = (0, 0, 0) ∧
    (∀ t, decodeColor (ColorVal.rgb t) = t) ∧
    decodeColor (ColorVal.int c) =
      (((c / 2 ^ 16 % 2 ^ 8 : ℕ) : ℚ) / 255, ((c / 2 ^ 8 % 2 ^ 8 : ℕ) : ℚ) / 255,
        ((c % 2 ^ 8 : ℕ) : ℚ) / 255) ∧
    decodeColor (ColorVal.int 0x0078D4) = (0, 0x78 / 255, 0xD4 / 255) := by
  have e3 : ∀ x : ℕ, x &&& 0xFF = x % 2 ^ 8 := fun x => by
    have h8 := Nat.and_pow_two_sub_one_eq_mod x 8
    norm_num at h8 ⊢
    exact h8
  refine ⟨rfl, fun t => rfl, ?_, ?_⟩
  · unfold decodeColor
    dsimp only
    rw [if_neg hc]
    rw [Nat.shiftRight_eq_div_pow c 16, Nat.shiftRight_eq_div_pow c 8, e3, e3, e3]
  · have h1 : ((0x0078D4 >>> 16) &&& 0xFF : ℕ) = 0 := by decide
    have h2 : ((0x0078D4 >>> 8) &&& 0xFF : ℕ) = 0x78 := by decide
    have h3 : ((0x0078D4 : ℕ) &&& 0xFF : ℕ) = 0xD4 := by decide
    unfold decodeColor
    dsimp only
    norm_num [h1, h2, h3]

/-- Witness for C8 at the concrete color `0x0078D4`. -/
theorem color_decomposition_witness :
    (0x0078D4 : ℕ) ≠ 0 ∧
    decodeColor (ColorVal.int 0x0078D4) = (0, 0x78 / 255, 0xD4 / 255) :=
  ⟨by decide, (color_decomposition 0x0078D4 (by decide)).2.2.2⟩

/-- Claim C9 (counterexample): a single `translate_text` call on the
`localai` backend with a missing key mutates the configuration field
`api_key` from `none` to the placeholder credential, so the configuration
is not immutable. -/
theorem localai_api_key_mutation_counterexample :
    stLocalai.api_key = none ∧
    (translate_text envFail stLocalai ['H', 'i'] (some "en")).state.api_key
      = some "not-needed" := ⟨rfl, rfl⟩

/-- Claim C9 (amended): `detect_language` changes no configuration field;
`translate_text` preserves the backend selection, base URL, model name and
auto-detect flag unconditionally, and preserves `api_key` as well whenever
the selected service is not `localai` (the sole exception being the
missing-key `localai` path, which writes the placeholder credential). -/
theorem translator_config_immutable_amended :
    (∀ (env : Env) (s : TranslatorState) (t : List Char),
      (detect_language env s t).2.translator_service = s.translator_service ∧
      (detect_language env s t).2.api_key = s.api_key ∧
      (detect_language env s t).2.base_url = s.base_url ∧
      (detect_language env s t).2.model_name = s.model_name ∧
      (detect_language env s t).2.auto_detect_language = s.auto_detect_language) ∧
    (∀ (env : Env) (s : TranslatorState) (text : List Char) (lang : Option String),
      (translate_text env s text lang).state.translator_service = s.translator_service ∧
      (translate_text env s text lang).state.base_url = s.base_url ∧
      (translate_text env s text lang).state.model_name = s.model_name ∧
      (translate_text env s text lang).state.auto_detect_language
        = s.auto_detect_language) ∧
    (∀ (env : Env) (s : TranslatorState) (text : List Char) (lang : Option String),
      s.translator_service ≠ "localai" →
      (translate_text env s text lang).state.api_key = s.api_key) := by
  refine ⟨?_, ?_, ?_⟩
  · intro env s t
    obtain ⟨lc, h⟩ := detect_language_state env s t
    rw [h]
    exact ⟨rfl, rfl, rfl, rfl, rfl⟩
  · intro env s text lang
    obtain ⟨tc, lc, ak, h⟩ := translate_text_state env s text lang
    rw [h]
    exact ⟨rfl, rfl, rfl, rfl⟩
  · intro env s text lang hloc
    exact translate_text_apiKey env s text lang hloc

/-- Witness for the amended C9 at a non-`localai` service. -/
theorem translator_config_immutable_amended_witness :
    stGoogle.translator_service ≠ "localai" ∧
    (translate_text envFail stGoogle ['H', 'i'] none).state.api_key = stGoogle.api_key :=
  ⟨by decide,
   translator_config_immutable_amended.2.2 envFail stGoogle ['H', 'i'] none (by decide)⟩

/-- Claim C10: error atomicity of the translation cache — under a backend
whose every invocation raises, `translate_text` leaves the translation
cache exactly as it was before the call; entries are written only on
backend success. -/
theorem failing_backend_cache_atomic (env : Env) (s : TranslatorState)
    (text : List Char) (lang : Option String)
    (hg : ∀ src u, env.googleBackend src u = none)
    (hc : ∀ a b m u, env.chatBackend a b m u = none)
    (hs : knownService s) :
    (translate_text env s text lang).state.translation_cache = s.translation_cache :=
  (translate_text_failing env s text lang hg hc hs).1

/-- Witness for C10 at a concrete failing environment and pre-filled cache. -/
theorem failing_backend_cache_atomic_witness :
    knownService stCached ∧
    (translate_text envFail stCached ['H', 'i'] none).state.translation_cache
      = stCached.translation_cache :=
  ⟨by decide,
   failing_backend_cache_atomic envFail stCached ['H', 'i'] none
     (fun _ _ => rfl) (fun _ _ _ _ => rfl) (by decide)⟩


/-- Claim C2 (counterexample): with service `openai` and no API key
configured, on an uncached English text the dispatch step raises the
missing-credential error, yet `translate_text` returns normally with the
original text and unchanged state — no `ConfigurationError` is surfaced
to the caller. -/
theorem missing_key_swallowed_counterexample :
    (dispatchBackend envFail stOpenai ['H', 'i'] "en").1
      = Except.error TransError.configError ∧
    translate_text envFail stOpenai ['H', 'i'] (some "en") = ⟨['H', 'i'], stOpenai, 0⟩ :=
  ⟨rfl, rfl⟩

/-- Claim C2 (amended): for the key-mandating chat backends (`openai`,
`freegpt`) with a missing or empty key and a non-blank, non-Chinese,
uncached input, the dispatch raises the missing-credential error, the
blanket `except` handler catches it, and `translate_text` returns the
original text with the state unchanged and no backend invocation. -/
theorem missing_key_error_caught_internally (env : Env) (s : TranslatorState)
    (text : List Char) (l : String)
    (himp : env.openaiImportOk = true)
    (hsvc : s.translator_service = "openai" ∨ s.translator_service = "freegpt")
    (hkey : optFalsy s.api_key = true)
    (hblank : isBlank text = false) (hch : is_chinese text = false)
    (hmiss : s.translation_cache.lookup (cache_key (some l) text) = none) :
    dispatchBackend env s text (if l = "auto" then "auto" else l)
      = (Except.error TransError.configError, s, 0) ∧
    translate_text env s text (some l) = ⟨text, s, 0⟩ := by
  have h1 : s.translator_service ≠ "google" := by
    rcases hsvc with h | h <;> simp [h]
  have h2 : isChatService s.translator_service = true := by
    rcases hsvc with h | h <;> simp [isChatService, h]
  have h3 : s.translator_service ≠ "localai" := by
    rcases hsvc with h | h <;> simp [h]
  have hd : dispatchBackend env s text (if l = "auto" then "auto" else l)
      = (Except.error TransError.configError, s, 0) := by
    unfold dispatchBackend
    rw [if_neg h1, h2, himp]
    simp [hkey, h3]
  refine ⟨hd, ?_⟩
  unfold translate_text
  simp only [hblank, Bool.false_eq_true, if_false, hch, hmiss]
  unfold finishTranslate
  rw [hd]

/-- Witness for the amended C2 at a concrete key-less OpenAI translator. -/
theorem missing_key_error_caught_internally_witness :
    envFail.openaiImportOk = true ∧
    optFalsy stOpenai.api_key = true ∧
    translate_text envFail stOpenai ['H', 'e', 'y'] (some "en")
      = ⟨['H', 'e', 'y'], stOpenai, 0⟩ :=
  ⟨rfl, rfl,
   (missing_key_error_caught_internally envFail stOpenai ['H', 'e', 'y'] "en"
     rfl (Or.inl rfl) rfl (by decide) (by decide) rfl).2⟩

/-- Claim C3 (counterexample): the cache key is the flat string
`lang:text` (or the bare text when no language is given), which conflates
the distinct pairs `(some "en", "x")` and `(none, "en:x")`: the first call
stores under that key and the second call — a different pair — reads the
same entry, returning the first call's translation of a different text
with no backend invocation. -/
theorem cache_key_collision_counterexample :
    ((some "en", ['x']) ≠ ((none : Option String), ['e', 'n', ':', 'x'])) ∧
    cache_key (some "en") ['x'] = cache_key none ['e', 'n', ':', 'x'] ∧
    (translate_text envProbe stGoogle ['x'] (some "en")).state.translation_cache
      = [(['e', 'n', ':', 'x'], ['T'])] ∧
    (translate_text envProbe
        (translate_text envProbe stGoogle ['x'] (some "en")).state
        ['e', 'n', ':', 'x'] none).text = ['T'] ∧
    (translate_text envProbe
        (translate_text envProbe stGoogle ['x'] (some "en")).state
        ['e', 'n', ':', 'x'] none).backendCalls = 0 :=
  ⟨by decide, rfl, rfl, rfl, rfl⟩

/-- Claim C3 (amended): the cache is keyed by the flat string `lang:text`
(bare text when no language is given), so distinct pairs can share one
entry; what does hold is the no-eviction/no-overwrite invariant: every binding present in
the translation cache before a `translate_text` call is still present,
with the same value, after it. -/
theorem translation_cache_no_overwrite (env : Env) (s : TranslatorState)
    (text : List Char) (lang : Option String) (k v : List Char)
    (h : s.translation_cache.lookup k = some v) :
    (translate_text env s text lang).state.translation_cache.lookup k = some v :=
  translate_text_lookup env s text lang k v h

/-- Witness for the amended C3 at a concrete pre-filled cache. -/
theorem translation_cache_no_overwrite_witness :
    stCached.translation_cache.lookup ['k'] = some ['v'] ∧
    (translate_text envFail stCached ['H', 'i'] none).state.translation_cache.lookup ['k']
      = some ['v'] :=
  ⟨rfl, translation_cache_no_overwrite envFail stCached ['H', 'i'] none ['k'] ['v'] rfl⟩


/-- Claim C4: memoization idempotence on the backend-dispatch path — when
a call misses the cache and the dispatched backend succeeds, the call
returns the backend's answer with exactly one backend invocation, and an
immediately repeated call with the same `(sourceLanguage, text)` pair
returns the identical value from the cache with zero backend
invocations. -/
theorem translate_memoization_idempotent (env : Env) (s : TranslatorState)
    (text : List Char) (l : String) (tr : List Char) (s' : TranslatorState) (n : Nat)
    (hblank : isBlank text = false) (hch : is_chinese text = false)
    (hmiss : s.translation_cache.lookup (cache_key (some l) text) = none)
    (hs : knownService s)
    (hd : dispatchBackend env s text (if l = "auto" then "auto" else l)
      = (Except.ok tr, s', n)) :
    (translate_text env s text (some l)).text = tr ∧
    (translate_text env s text (some l)).backendCalls = 1 ∧
    (translate_text env (translate_text env s text (some l)).state text (some l)).text
      = tr ∧
    (translate_text env (translate_text env s text (some l)).state text
      (some l)).backendCalls = 0 := by
  have hn1 : n = 1 := dispatchBackend_ok_calls env s text
    (if l = "auto" then "auto" else l) tr s' n hs hd
  have hc1 : translate_text env s text (some l) =
      ⟨tr, { s' with translation_cache :=
        (cache_key (some l) text, tr) :: s'.translation_cache }, n⟩ := by
    unfold translate_text
    simp only [hblank, Bool.false_eq_true, if_false, hch, hmiss]
    unfold finishTranslate
    rw [hd]
  have hhit : List.lookup (cache_key (some l) text)
      ((cache_key (some l) text, tr) :: s'.translation_cache) = some tr := by
    simp [List.lookup]
  have hc2 : translate_text env
      ({ s' with translation_cache :=
        (cache_key (some l) text, tr) :: s'.translation_cache } : TranslatorState)
      text (some l) =
      ⟨tr, { s' with translation_cache :=
        (cache_key (some l) text, tr) :: s'.translation_cache }, 0⟩ := by
    unfold translate_text
    simp only [hblank, Bool.false_eq_true, if_false, hch]
    simp only [hhit]
  refine ⟨by rw [hc1], by rw [hc1, hn1], ?_, ?_⟩
  · rw [hc1, hc2]
  · rw [hc1, hc2]

/-- Witness for C4 at a concrete succeeding Google backend. -/
theorem translate_memoization_idempotent_witness :
    isBlank ['x'] = false ∧ is_chinese ['x'] = false ∧ knownService stGoogle ∧
    dispatchBackend envProbe stGoogle ['x'] "en" = (Except.ok ['T'], stGoogle, 1) ∧
    (translate_text envProbe stGoogle ['x'] (some "en")).text = ['T'] ∧
    (translate_text envProbe stGoogle ['x'] (some "en")).backendCalls = 1 ∧
    (translate_text envProbe (translate_text envProbe stGoogle ['x'] (some "en")).state
      ['x'] (some "en")).text = ['T'] ∧
    (translate_text envProbe (translate_text envProbe stGoogle ['x'] (some "en")).state
      ['x'] (some "en")).backendCalls = 0 := by
  refine ⟨by decide, by decide, by decide, rfl, ?_⟩
  have h := translate_memoization_idempotent envProbe stGoogle ['x'] "en" ['T']
    stGoogle 1 (by decide) (by decide) rfl (by decide) rfl
  exact ⟨h.1, h.2.1, h.2.2.1, h.2.2.2⟩

theorem fragLoop_no_cancel (flag : Nat → Bool) (n : Nat) :
    ∀ t, (∀ i, i < n → flag (t + i) = false) → fragLoop flag t n = (n, t + n, false) := by
  induction n with
  | zero => intro t _; rfl
  | succ m ih =>
    intro t h
    have h0 : flag t = false := by simpa using h 0 (Nat.succ_pos m)
    have hr := ih (t + 1) (fun i hi => by
      have e : t + 1 + i = t + (i + 1) := by omega
      rw [e]
      exact h (i + 1) (by omega))
    unfold fragLoop
    rw [h0]
    simp only [Bool.false_eq_true, if_false, hr]
    have e2 : t + 1 + m = t + (m + 1) := by omega
    rw [e2]

/-- Claim C7: cooperative cancellation — with the flag raised right after
the first page of a three-page document finishes (the check before page 2
reads true), only page 1's fragments are processed, pages 2 and 3 are
never entered, and the save step is not invoked; moreover with the flag
raised from the start, nothing is processed and nothing is saved, for any
document. -/
theorem cancellation_halts_worker :
    (∀ n1 n2 n3 : Nat,
      runWorker (fun t => decide (n1 + 1 ≤ t)) [n1, n2, n3] = ([n1], false)) ∧
    (∀ (flag : Nat → Bool) (pages : List Nat), (∀ t, flag t = true) →
      runWorker flag pages = ([], false)) := by
  constructor
  · intro n1 n2 n3
    have hfrag : fragLoop (fun t => decide (n1 + 1 ≤ t)) 1 n1 = (n1, 1 + n1, false) := by
      apply fragLoop_no_cancel
      intro i hi
      simp only [decide_eq_false_iff_not]
      omega
    have h0 : (decide (n1 + 1 ≤ 0)) = false := by simp
    have h1 : (decide (n1 + 1 ≤ 1 + n1)) = true := by
      simp only [decide_eq_true_eq]
      omega
    unfold runWorker pageLoop
    rw [h0]
    simp only [Bool.false_eq_true, if_false, hfrag]
    unfold pageLoop
    rw [h1]
    simp
  · intro flag pages hflag
    cases pages with
    | nil =>
      unfold runWorker pageLoop
      simp [hflag 0]
    | cons p ps =>
      unfold runWorker pageLoop
      simp [hflag 0]

/-- Witness for C7's always-cancelled conjunct at a concrete flag and
document. -/
theorem cancellation_halts_worker_witness :
    (∀ t, (fun _ : Nat => true) t = true) ∧
    runWorker (fun _ => true) [1, 2] = ([], false) :=
  ⟨fun _ => rfl, cancellation_halts_worker.2 (fun _ => true) [1, 2] (fun _ => rfl)⟩

/-- Claim C1: with a backend whose every invocation raises, any
`translate_text` call that gets past the cache (a cache miss) returns the
original text unchanged and swallows the error, and a whole document
processed from a fresh cache keeps its text content byte-identical — the
run completes without crashing. -/
theorem failing_backend_keeps_original (env : Env) (s : TranslatorState)
    (hg : ∀ src u, env.googleBackend src u = none)
    (hc : ∀ a b m u, env.chatBackend a b m u = none)
    (hs : knownService s) :
    (∀ text lang, s.translation_cache.lookup (cache_key lang text) = none →
      (translate_text env s text lang).text = text) ∧
    (s.translation_cache = [] → ∀ doc, (translate_pdf env s doc).1 = doc) :=
  ⟨fun text lang hm => (translate_text_failing env s text lang hg hc hs).2 hm,
   fun h0 doc => translate_pdf_failing env hg hc doc s hs h0⟩

/-- Witness for C1 at a concrete failing environment, fresh state and
two-page document. -/
theorem failing_backend_keeps_original_witness :
    knownService stGoogle ∧ stGoogle.translation_cache = [] ∧
    (translate_text envFail stGoogle ['H', 'i'] none).text = ['H', 'i'] ∧
    (translate_pdf envFail stGoogle [[['H', 'i'], ['4', '2']], [['O', 'k']]]).1
      = [[['H', 'i'], ['4', '2']], [['O', 'k']]] :=
  ⟨by decide, rfl,
   (failing_backend_keeps_original envFail stGoogle (fun _ _ => rfl)
     (fun _ _ _ _ => rfl) (by decide)).1 ['H', 'i'] none rfl,
   (failing_backend_keeps_original envFail stGoogle (fun _ _ => rfl)
     (fun _ _ _ _ => rfl) (by decide)).2 rfl _⟩

end PDFTrans
